import Mathlib

/-!
Verification of the pplx-api client library (src/pplx_api/pplx_api.py).

The development shallowly embeds the two cores of the library:
  * the validated request model (class PerplexityRequest, lines 15-42), and
  * the streaming response accumulator
    (PerplexityClient._handle_stream_response, lines 123-188, and its
    line-for-line identical async twin _handle_async_stream_response,
    lines 221-281),
together with the client's credential resolution (lines 51-59).

Python JSON values are embedded as the inductive type JVal; Python dicts
are association lists with unique keys (insertion order preserved,
overwriting a key keeps its position, as CPython does).  json.loads is
embedded as a fuel-based recursive-descent parser, parseJson; two corners
of full JSON are deliberately out of the model and documented at the
definitions: fractional/exponent number literals and \uXXXX string escapes
(neither occurs in the API's chunk vocabulary of integer token counts and
plain strings).  Python floats in the request model are embedded as
rationals: the validation bounds compare exactly representable values
only.  Uncaught Python exceptions are embedded as the error side of
Except PyError.
-/

/-- Embedded JSON value: the result type of the embedded json.loads.
Objects are association lists of string keys (a Python dict in insertion
order with unique keys). -/
inductive JVal : Type where
  | null : JVal
  | bool : Bool → JVal
  | num : Int → JVal
  | str : String → JVal
  | arr : List JVal → JVal
  | obj : List (String × JVal) → JVal
deriving Repr

/-- Python dict assignment d[k] = v on an association list: overwriting an
existing key keeps its position (CPython semantics), a new key is
appended.  The lists modelling dicts always carry unique keys. -/
def dictSet : List (String × JVal) → String → JVal → List (String × JVal)
  | [], k, v => [(k, v)]
  | kv :: rest, k, v =>
    if kv.1 = k then (k, v) :: rest else kv :: dictSet rest k v

/-- Python dict.update(kvs): assign each pair in order (line 170 of the
source applies this to the filtered chunk items). -/
def dictUpdate (d kvs : List (String × JVal)) : List (String × JVal) :=
  kvs.foldl (fun acc kv => dictSet acc kv.1 kv.2) d

/-- Python dict lookup d.get(k): the value at the first (hence, for a
well-formed dict, only) binding of k. -/
def dictGet : List (String × JVal) → String → Option JVal
  | [], _ => none
  | kv :: rest, k => if kv.1 = k then some kv.2 else dictGet rest k

/-- Python key test, k in d. -/
def dictHas : List (String × JVal) → String → Bool
  | [], _ => false
  | kv :: rest, k => kv.1 = k || dictHas rest k

/-- Collapse duplicate keys of a parsed member list the way building a
Python dict does: later bindings overwrite earlier ones in place. -/
def mkPyDict (kvs : List (String × JVal)) : List (String × JVal) :=
  kvs.foldl (fun acc kv => dictSet acc kv.1 kv.2) []

/-- The opening curly brace character, U+007B. -/
def lbrace : Char := Char.ofNat 123

/-- The closing curly brace character, U+007D. -/
def rbrace : Char := Char.ofNat 125

/-- Skip JSON insignificant whitespace. -/
def skipWs : List Char → List Char
  | c :: cs =>
    if c = ' ' ∨ c = '\t' ∨ c = '\n' ∨ c = '\r' then skipWs cs else c :: cs
  | [] => []

/-- JSON string escape characters (the \uXXXX form is not modelled; a
payload using it is outside the model). -/
def escChar (c : Char) : Option Char :=
  if c = '"' then some '"'
  else if c = '\\' then some '\\'
  else if c = '/' then some '/'
  else if c = 'n' then some '\n'
  else if c = 't' then some '\t'
  else if c = 'r' then some '\r'
  else if c = 'b' then some (Char.ofNat 8)
  else if c = 'f' then some (Char.ofNat 12)
  else none

/-- Parse the body of a JSON string literal after its opening quote;
returns the decoded characters and the input after the closing quote. -/
def parseStrChars : List Char → Option (List Char × List Char)
  | c :: cs =>
    if c = '"' then some ([], cs)
    else if c = '\\' then
      match cs with
      | e :: cs2 =>
        match escChar e with
        | some d => (parseStrChars cs2).map (fun r => (d :: r.1, r.2))
        | none => none
      | [] => none
    else (parseStrChars cs).map (fun r => (c :: r.1, r.2))
  | [] => none

/-- Take a maximal run of decimal digits. -/
def takeDigits : List Char → List Char × List Char
  | [] => ([], [])
  | c :: cs =>
    if c.isDigit then
      let r := takeDigits cs
      (c :: r.1, r.2)
    else ([], c :: cs)

/-- Decimal value of a digit run. -/
def digitsToNat (ds : List Char) : Nat :=
  ds.foldl (fun n c => 10 * n + (c.toNat - 48)) 0

/-- True when a number literal continues with a fraction or exponent;
such literals are outside the model (the parser rejects them). -/
def numContinues : List Char → Bool
  | c :: _ => c = '.' || c = 'e' || c = 'E'
  | [] => false

mutual

/-- Recursive-descent parser for one JSON value, fuel-bounded; the model
of json.loads reading a value. -/
def parseJVal : Nat → List Char → Option (JVal × List Char)
  | 0, _ => none
  | fuel + 1, input =>
    match skipWs input with
    | [] => none
    | c :: rest =>
      if c = '"' then
        (parseStrChars rest).map (fun r => (JVal.str (String.mk r.1), r.2))
      else if c = lbrace then
        parseObjFields fuel rest [] true
      else if c = '[' then
        parseArrElems fuel rest [] true
      else if c = 't' then
        match rest with
        | 'r' :: 'u' :: 'e' :: rest2 => some (JVal.bool true, rest2)
        | _ => none
      else if c = 'f' then
        match rest with
        | 'a' :: 'l' :: 's' :: 'e' :: rest2 => some (JVal.bool false, rest2)
        | _ => none
      else if c = 'n' then
        match rest with
        | 'u' :: 'l' :: 'l' :: rest2 => some (JVal.null, rest2)
        | _ => none
      else if c = '-' then
        match takeDigits rest with
        | ([], _) => none
        | (ds, rest2) =>
          if numContinues rest2 then none
          else some (JVal.num (-(digitsToNat ds : Int)), rest2)
      else if c.isDigit then
        match takeDigits (c :: rest) with
        | (ds, rest2) =>
          if numContinues rest2 then none
          else some (JVal.num ((digitsToNat ds : Int)), rest2)
      else none

/-- Parse the members of a JSON object after the opening brace; isFirst
marks that no member has been read yet (so an immediate closing brace is
the empty object). -/
def parseObjFields : Nat → List Char → List (String × JVal) → Bool →
    Option (JVal × List Char)
  | 0, _, _, _ => none
  | fuel + 1, input, acc, isFirst =>
    match skipWs input with
    | [] => none
    | c :: rest =>
      if c = rbrace then
        if isFirst then some (JVal.obj [], rest) else none
      else if c = '"' then
        match parseStrChars rest with
        | some (keyChars, rest2) =>
          match skipWs rest2 with
          | ':' :: rest3 =>
            match parseJVal fuel rest3 with
            | some (v, rest4) =>
              let acc2 := acc ++ [(String.mk keyChars, v)]
              match skipWs rest4 with
              | ',' :: rest5 => parseObjFields fuel rest5 acc2 false
              | c2 :: rest5 =>
                if c2 = rbrace then some (JVal.obj (mkPyDict acc2), rest5)
                else none
              | [] => none
            | none => none
          | _ => none
        | none => none
      else none

/-- Parse the elements of a JSON array after the opening bracket. -/
def parseArrElems : Nat → List Char → List JVal → Bool →
    Option (JVal × List Char)
  | 0, _, _, _ => none
  | fuel + 1, input, acc, isFirst =>
    match skipWs input with
    | [] => none
    | c :: rest =>
      if c = ']' then
        if isFirst then some (JVal.arr [], rest) else none
      else
        match parseJVal fuel (c :: rest) with
        | some (v, rest2) =>
          match skipWs rest2 with
          | ',' :: rest3 => parseArrElems fuel rest3 (acc ++ [v]) false
          | c2 :: rest3 =>
            if c2 = ']' then some (JVal.arr (acc ++ [v]), rest3)
            else none
          | [] => none
        | none => none

end

/-- Model of json.loads(s): parse one JSON value and require the rest of
the input to be whitespace, as the Python library does. -/
def parseJson (s : String) : Option JVal :=
  match parseJVal (2 * s.length + 2) s.data with
  | some (v, rest) => if skipWs rest = [] then some v else none
  | none => none

/-- Message model (source lines 11-13): a role and a content string. -/
structure Message : Type where
  role : String
  content : String
deriving Repr, DecidableEq

/-- Caller-supplied fields of PerplexityRequest (source lines 15-29), with
the source's defaults.  Python floats are embedded as rationals.  Note the
source puts no constraint at all on max_tokens: its declaration on line 18
is plain Optional[int] = None, with no positivity bound. -/
structure PerplexityRequest : Type where
  model : String := "llama-3.1-sonar-large-128k-online"
  messages : List Message
  max_tokens : Option Int := none
  temperature : Rat := 0.2
  top_p : Rat := 0.9
  return_citations : Bool := false
  search_domain_filter : Option (List String) := none
  return_images : Bool := false
  return_related_questions : Bool := false
  search_recency_filter : Option String := none
  top_k : Int := 0
  stream : Bool := true
  presence_penalty : Rat := 0
  frequency_penalty : Rat := 1
deriving Repr, DecidableEq

/-- Validation errors pydantic can report for PerplexityRequest, one per
constrained field.  invalidSearchRecencyFilter is the distinct custom
error raised by validate_search_recency_filter (source lines 31-38). -/
inductive FieldError : Type where
  | temperatureOutOfRange : FieldError
  | topPOutOfRange : FieldError
  | searchDomainFilterTooLong : FieldError
  | invalidSearchRecencyFilter : FieldError
  | topKOutOfRange : FieldError
  | presencePenaltyOutOfRange : FieldError
  | frequencyPenaltyOutOfRange : FieldError
deriving Repr, DecidableEq

/-- The four tokens accepted by validate_search_recency_filter (source
line 33). -/
def validRecency (v : String) : Bool :=
  v = "month" || v = "week" || v = "day" || v = "hour"

/-- Eager pydantic validation of a PerplexityRequest, collecting the
errors of every violated field constraint in field order: temperature in
[0,2) (line 19), top_p in [0,1] (line 20), search_domain_filter of at most
3 entries (line 22), search_recency_filter among the four tokens (lines
31-38), top_k in [0,2048] (line 26), presence_penalty in [-2,2] (line 28),
frequency_penalty nonnegative (line 29).  max_tokens (line 18) carries no
constraint and is not inspected. -/
def validateRequest (r : PerplexityRequest) : List FieldError :=
  (if 0 ≤ r.temperature ∧ r.temperature < 2 then []
   else [FieldError.temperatureOutOfRange]) ++
  (if 0 ≤ r.top_p ∧ r.top_p ≤ 1 then [] else [FieldError.topPOutOfRange]) ++
  (match r.search_domain_filter with
   | some l => if l.length ≤ 3 then [] else [FieldError.searchDomainFilterTooLong]
   | none => []) ++
  (match r.search_recency_filter with
   | some v => if validRecency v then [] else [FieldError.invalidSearchRecencyFilter]
   | none => []) ++
  (if 0 ≤ r.top_k ∧ r.top_k ≤ 2048 then [] else [FieldError.topKOutOfRange]) ++
  (if -2 ≤ r.presence_penalty ∧ r.presence_penalty ≤ 2 then []
   else [FieldError.presencePenaltyOutOfRange]) ++
  (if 0 ≤ r.frequency_penalty then [] else [FieldError.frequencyPenaltyOutOfRange])

/-- Constructing a PerplexityRequest: pydantic validates eagerly at
construction and raises a ValidationError carrying every field error when
any constraint fails; no network is involved (the model is a pure value
object, sent only later by chat_completion). -/
def mkPerplexityRequest (r : PerplexityRequest) :
    Except (List FieldError) PerplexityRequest :=
  match validateRequest r with
  | [] => Except.ok r
  | errs => Except.error errs

/-- Python truthiness-based or on optional strings: a or b falls through
to b when a is None or the empty string (source line 57). -/
def pyOrStr (a b : Option String) : Option String :=
  match a with
  | some s => if s = "" then b else some s
  | none => b

/-- Credential resolution of PerplexityClient.__init__ (source lines
51-59): self.api_key = api_key or os.environ.get("PERPLEXITY_API_KEY"),
then raise ValueError if the result is falsy.  envKey stands for the
environment lookup's result.  Construction is pure: no network call. -/
def mkClient (api_key envKey : Option String) : Except String String :=
  let key := pyOrStr api_key envKey
  match key with
  | some s =>
    if s = "" then
      Except.error "API key must be provided either as a parameter or through the PERPLEXITY_API_KEY environment variable."
    else Except.ok s
  | none =>
    Except.error "API key must be provided either as a parameter or through the PERPLEXITY_API_KEY environment variable."

/-- Uncaught Python exception kinds the stream handler can raise while
processing a structurally unexpected chunk; only json.JSONDecodeError is
caught by the source (lines 167 and 185), so these abort the stream. -/
inductive PyError : Type where
  | attributeError : PyError
  | keyError : String → PyError
  | indexError : PyError
  | typeError : PyError
deriving Repr, DecidableEq

/-- The accumulated response (source lines 135-157), a dict skeleton.
The embedding names the parts the loop mutates: top is the top-level dict
without its "choices" and "usage" entries (the keys dict.update on line
170 can touch), the single choice's fields are inlined (index, the two
role strings and the message/delta content strings, finish_reason), and
usage is the value of the "usage" key. -/
structure AccumulatedResponse : Type where
  top : List (String × JVal)
  index : Int
  finish_reason : JVal
  messageRole : String
  messageContent : String
  deltaRole : String
  deltaContent : String
  usage : JVal
deriving Repr

/-- The skeleton the accumulator starts from (source lines 135-157 and
identically 233-255). -/
def initialAccumulatedResponse : AccumulatedResponse where
  top := [("id", JVal.null), ("model", JVal.null),
          ("object", JVal.str "chat.completion"), ("created", JVal.null)]
  index := 0
  finish_reason := JVal.null
  messageRole := "assistant"
  messageContent := ""
  deltaRole := "assistant"
  deltaContent := ""
  usage := JVal.obj [("prompt_tokens", JVal.null),
                     ("completion_tokens", JVal.null),
                     ("total_tokens", JVal.null)]

/-- The expression chunk["choices"][0] of source line 171, with the
uncaught exception CPython would raise on a structural mismatch: a missing
"choices" key is a KeyError, indexing an empty list is an IndexError, and
indexing a non-list (or later indexing a non-dict first choice with a
string key) is a TypeError.  The ok value is the first choice's member
list. -/
def chunkChoice0 (fields : List (String × JVal)) :
    Except PyError (List (String × JVal)) :=
  match dictGet fields "choices" with
  | none => Except.error (PyError.keyError "choices")
  | some (JVal.arr []) => Except.error PyError.indexError
  | some (JVal.arr (JVal.obj c0f :: _)) => Except.ok c0f
  | some (JVal.arr (_ :: _)) => Except.error PyError.typeError
  | some _ => Except.error PyError.typeError

/-- The expression chunk["choices"][0]["delta"].get("content", "") of
source line 171: a missing "delta" key is a KeyError; .get on a non-dict
delta is an AttributeError; a content value that is not a string makes the
later string concatenation raise a TypeError. -/
def deltaContentOf (c0f : List (String × JVal)) : Except PyError String :=
  match dictGet c0f "delta" with
  | none => Except.error (PyError.keyError "delta")
  | some (JVal.obj deltaf) =>
    match (dictGet deltaf "content").getD (JVal.str "") with
    | JVal.str content => Except.ok content
    | _ => Except.error PyError.typeError
  | some _ => Except.error PyError.attributeError

/-- Source lines 174-175: overwrite the accumulated finish_reason exactly
when the chunk's first choice carries the key. -/
def applyFinishReason (acc : AccumulatedResponse)
    (c0f : List (String × JVal)) : AccumulatedResponse :=
  match dictGet c0f "finish_reason" with
  | some fr => { acc with finish_reason := fr }
  | none => acc

/-- Source lines 176-177: replace the accumulated usage wholesale exactly
when the chunk carries a "usage" key. -/
def applyUsage (acc : AccumulatedResponse)
    (fields : List (String × JVal)) : AccumulatedResponse :=
  match dictGet fields "usage" with
  | some u => { acc with usage := u }
  | none => acc

/-- Processing one parsed chunk (source lines 169-177, identically
266-273): merge every top-level key except "choices" and "usage" into the
accumulated dict (line 170); read choices[0].delta.get("content", "")
(line 171); append it to both content strings (lines 172-173); overwrite
finish_reason when the first choice carries the key (lines 174-175);
overwrite usage wholesale when the chunk carries it (lines 176-177).
A non-dict chunk has no .items(), so it raises an AttributeError; the
structural errors of the intermediate expressions are those of
chunkChoice0 and deltaContentOf, and they abort processing in the
source's evaluation order.  Returns the updated response and the
extracted content fragment. -/
def processChunk (acc : AccumulatedResponse) (chunk : JVal) :
    Except PyError (AccumulatedResponse × String) :=
  match chunk with
  | JVal.obj fields =>
    let acc1 := { acc with
      top := dictUpdate acc.top
        (fields.filter (fun kv => kv.1 ≠ "choices" ∧ kv.1 ≠ "usage")) }
    match chunkChoice0 fields with
    | Except.error e => Except.error e
    | Except.ok c0f =>
      match deltaContentOf c0f with
      | Except.error e => Except.error e
      | Except.ok content =>
        let acc2 := { acc1 with
          deltaContent := acc1.deltaContent ++ content,
          messageContent := acc1.messageContent ++ content }
        Except.ok (applyUsage (applyFinishReason acc2 c0f) fields, content)
  | _ => Except.error PyError.attributeError

/-- Character-level test that pat is an initial segment of the second
list; the recursion of Python str.startswith. -/
def startsWithChars : List Char → List Char → Bool
  | [], _ => true
  | _ :: _, [] => false
  | p :: ps, c :: cs => p = c && startsWithChars ps cs

/-- Python str.strip() with no arguments: remove leading and trailing
whitespace (source line 163 applies it to the decoded line). -/
def pyStrip (s : String) : String :=
  String.mk (((s.data.dropWhile Char.isWhitespace).reverse.dropWhile
    Char.isWhitespace).reverse)

/-- Python str.startswith(pat) (source line 164). -/
def pyStartsWith (s pat : String) : Bool :=
  startsWithChars pat.data s.data

/-- Python character slicing s[n:] (source line 165 takes [6:]). -/
def pyDrop (s : String) (n : Nat) : String :=
  String.mk (s.data.drop n)

/-- What one loop iteration did with its line, besides updating state. -/
inductive LineEvent : Type where
  | ignored : LineEvent
  | chunkProcessed : String → LineEvent
  | malformedReported : String → LineEvent
deriving Repr, DecidableEq

/-- One iteration of the line loop (source lines 161-186, identically
257-279): skip empty lines; strip; only lines starting with "data: " are
considered; the payload after the prefix is compared against the literal
sentinel "[DONE]" - a sentinel line is merely not processed (the source
has no break, so the loop continues); any other payload is parsed as
JSON, a parse failure is reported and skipped (the except branch on line
185), and a parsed chunk is processed by processChunk, whose structural
errors escape the try (only JSONDecodeError is caught). -/
def processLine (acc : AccumulatedResponse) (line : String) :
    Except PyError (AccumulatedResponse × LineEvent) :=
  if line = "" then Except.ok (acc, LineEvent.ignored)
  else
    let event_data := pyStrip line
    if pyStartsWith event_data "data: " then
      let data := pyDrop event_data 6
      if data ≠ "[DONE]" then
        match parseJson data with
        | some chunk =>
          match processChunk acc chunk with
          | Except.ok (acc2, content) =>
            Except.ok (acc2, LineEvent.chunkProcessed content)
          | Except.error e => Except.error e
        | none => Except.ok (acc, LineEvent.malformedReported data)
      else Except.ok (acc, LineEvent.ignored)
    else Except.ok (acc, LineEvent.ignored)

/-- The line loop of _handle_stream_response from a given state: fold
processLine over the lines, aborting on an uncaught exception; on normal
exhaustion return the accumulated response (source line 188). -/
def handleStreamFrom (acc : AccumulatedResponse) :
    List String → Except PyError AccumulatedResponse
  | [] => Except.ok acc
  | l :: ls =>
    match processLine acc l with
    | Except.ok (acc2, _) => handleStreamFrom acc2 ls
    | Except.error e => Except.error e

/-- The stream accumulator _handle_stream_response (source lines 123-188)
on an already-decoded line sequence. -/
def handleStreamResponse (lines : List String) :
    Except PyError AccumulatedResponse :=
  handleStreamFrom initialAccumulatedResponse lines

/-- The line loop of _handle_async_stream_response (source lines 257-279),
whose body is line-for-line identical to the sync loop. -/
def handleAsyncStreamFrom (acc : AccumulatedResponse) :
    List String → Except PyError AccumulatedResponse
  | [] => Except.ok acc
  | l :: ls =>
    match processLine acc l with
    | Except.ok (acc2, _) => handleAsyncStreamFrom acc2 ls
    | Except.error e => Except.error e

/-- The async stream accumulator _handle_async_stream_response (source
lines 221-281) on an already-decoded line sequence. -/
def handleAsyncStreamResponse (lines : List String) :
    Except PyError AccumulatedResponse :=
  handleAsyncStreamFrom initialAccumulatedResponse lines

/-- Observation helper: the message.content of a stream result. -/
def resMessageContent : Except PyError AccumulatedResponse → Option String
  | Except.ok a => some a.messageContent
  | Except.error _ => none

/-- Observation helper: the delta.content of a stream result. -/
def resDeltaContent : Except PyError AccumulatedResponse → Option String
  | Except.ok a => some a.deltaContent
  | Except.error _ => none

/-- Observation helper: the finish_reason of a stream result. -/
def resFinishReason : Except PyError AccumulatedResponse → Option JVal
  | Except.ok a => some a.finish_reason
  | Except.error _ => none

/-- Observation helper: the usage of a stream result. -/
def resUsage : Except PyError AccumulatedResponse → Option JVal
  | Except.ok a => some a.usage
  | Except.error _ => none

/-- Observation helper: a top-level key of a stream result. -/
def resTopGet (k : String) : Except PyError AccumulatedResponse → Option JVal
  | Except.ok a => dictGet a.top k
  | Except.error _ => none

/-- The last binding of a key in an association list: the value a
sequence of Python dict assignments of these pairs leaves for the key
(none when the key is never bound). -/
def lastBinding : List (String × JVal) → String → Option JVal
  | [], _ => none
  | kv :: rest, k =>
    match lastBinding rest k with
    | some v => some v
    | none => if kv.1 = k then some kv.2 else none

/-- Concrete stream lines used by the theorems below: the spec's Hello
example, the sentinel, and single-purpose chunks. -/
def line_hel : String := "data: \x7b\"choices\":[\x7b\"delta\":\x7b\"content\":\"Hel\"\x7d\x7d]\x7d"

/-- Second fragment line of the spec's Hello example. -/
def line_lo : String := "data: \x7b\"choices\":[\x7b\"delta\":\x7b\"content\":\"lo\"\x7d\x7d]\x7d"

/-- The sentinel line. -/
def line_done : String := "data: [DONE]"

/-- A one-fragment chunk line carrying content x. -/
def line_x : String := "data: \x7b\"choices\":[\x7b\"delta\":\x7b\"content\":\"x\"\x7d\x7d]\x7d"

/-- The spec's malformed line: its payload is not JSON. -/
def line_bad : String := "data: \x7bnot json"

/-- A chunk line carrying usage total_tokens 5 (and an empty delta). -/
def line_usage5 : String :=
  "data: \x7b\"choices\":[\x7b\"delta\":\x7b\x7d\x7d],\"usage\":\x7b\"total_tokens\":5\x7d\x7d"

/-- A chunk line carrying usage total_tokens 9 (and an empty delta). -/
def line_usage9 : String :=
  "data: \x7b\"choices\":[\x7b\"delta\":\x7b\x7d\x7d],\"usage\":\x7b\"total_tokens\":9\x7d\x7d"

/-- A chunk line whose first choice carries finish_reason stop. -/
def line_stop : String :=
  "data: \x7b\"choices\":[\x7b\"delta\":\x7b\x7d,\"finish_reason\":\"stop\"\x7d]\x7d"

/-- A chunk line with an empty delta and no finish_reason. -/
def line_plain : String := "data: \x7b\"choices\":[\x7b\"delta\":\x7b\x7d\x7d]\x7d"

/-- A chunk line carrying a top-level object key with a non-default value. -/
def line_object : String :=
  "data: \x7b\"object\":\"not-a-completion\",\"choices\":[\x7b\"delta\":\x7b\x7d\x7d]\x7d"

/-- A chunk line whose payload is the empty JSON object (no choices key). -/
def line_noChoices : String := "data: \x7b\x7d"

/-- A request whose max_tokens is the negative integer -5, all other
fields at their defaults with one message. -/
def reqNegMaxTokens : PerplexityRequest :=
  { messages := [{ role := "user", content := "hi" }], max_tokens := some (-5) }

/-- A request with search_recency_filter day. -/
def reqRecencyDay : PerplexityRequest :=
  { messages := [{ role := "user", content := "hi" }],
    search_recency_filter := some "day" }

/-- A request with search_recency_filter year. -/
def reqRecencyYear : PerplexityRequest :=
  { messages := [{ role := "user", content := "hi" }],
    search_recency_filter := some "year" }

theorem dictGet_dictSet_self (d : List (String × JVal)) (k : String) (v : JVal) :
    dictGet (dictSet d k v) k = some v := by
  induction d with
  | nil => simp [dictSet, dictGet]
  | cons kv rest ih =>
    by_cases hk : kv.1 = k
    · simp [dictSet, dictGet, hk]
    · simp [dictSet, dictGet, hk, ih]

theorem dictGet_dictSet_ne (d : List (String × JVal)) (k k2 : String) (v : JVal)
    (hne : k ≠ k2) : dictGet (dictSet d k v) k2 = dictGet d k2 := by
  induction d with
  | nil => simp [dictSet, dictGet, hne]
  | cons kv rest ih =>
    by_cases hk : kv.1 = k
    · simp [dictSet, dictGet, hk, hne, hk ▸ hne]
    · simp [dictSet, dictGet, hk, ih]

theorem dictGet_dictUpdate (kvs : List (String × JVal)) (d : List (String × JVal))
    (k : String) :
    dictGet (dictUpdate d kvs) k =
      match lastBinding kvs k with
      | some v => some v
      | none => dictGet d k := by
  induction kvs generalizing d with
  | nil => rfl
  | cons kv rest ih =>
    show dictGet (dictUpdate (dictSet d kv.1 kv.2) rest) k = _
    rw [ih]
    cases hlast : lastBinding rest k with
    | some v => simp [lastBinding, hlast]
    | none =>
      simp only [lastBinding, hlast]
      by_cases hk : kv.1 = k
      · subst hk
        simp [dictGet_dictSet_self]
      · simp [hk, dictGet_dictSet_ne d kv.1 k kv.2 hk]

theorem lastBinding_none_of_not_has (kvs : List (String × JVal)) (k : String)
    (h : dictHas kvs k = false) : lastBinding kvs k = none := by
  induction kvs with
  | nil => rfl
  | cons kv rest ih =>
    simp only [dictHas, Bool.or_eq_false_iff, decide_eq_false_iff_not] at h
    simp [lastBinding, ih h.2, h.1]

theorem dictHas_filter_false (kvs : List (String × JVal)) (k : String)
    (p : String × JVal → Bool) (h : dictHas kvs k = false) :
    dictHas (kvs.filter p) k = false := by
  induction kvs with
  | nil => rfl
  | cons kv rest ih =>
    simp only [dictHas, Bool.or_eq_false_iff, decide_eq_false_iff_not] at h
    rw [List.filter_cons]
    by_cases hp : p kv
    · simp [hp, dictHas, h.1, ih h.2]
    · simp [hp, ih h.2]

theorem lastBinding_filter (kvs : List (String × JVal)) (k : String)
    (p : String × JVal → Bool) (hp : ∀ v, p (k, v) = true) :
    lastBinding (kvs.filter p) k = lastBinding kvs k := by
  induction kvs with
  | nil => rfl
  | cons kv rest ih =>
    rw [List.filter_cons]
    by_cases hpkv : p kv = true
    · simp only [hpkv, if_true]
      show (match lastBinding (rest.filter p) k with
            | some v => some v
            | none => if kv.1 = k then some kv.2 else none) = _
      rw [ih]
      rfl
    · have hk : kv.1 ≠ k := by
        intro hk
        have hkv : kv = (k, kv.2) := by rw [← hk]
        exact hpkv (hkv ▸ hp kv.2)
      rw [if_neg (by simp [hpkv])]
      rw [ih]
      show _ = (match lastBinding rest k with
            | some v => some v
            | none => if kv.1 = k then some kv.2 else none)
      cases lastBinding rest k with
      | some v => rfl
      | none => simp [hk]

theorem handleStreamFrom_append (xs ys : List String) (acc : AccumulatedResponse) :
    handleStreamFrom acc (xs ++ ys) =
      match handleStreamFrom acc xs with
      | Except.ok a => handleStreamFrom a ys
      | Except.error e => Except.error e := by
  induction xs generalizing acc with
  | nil => rfl
  | cons l ls ih =>
    rw [List.cons_append]
    simp only [handleStreamFrom]
    cases hl : processLine acc l with
    | ok p =>
      obtain ⟨a, ev⟩ := p
      exact ih a
    | error e => rfl

theorem handleStreamFrom_skip (l : String)
    (hl : ∀ acc, ∃ ev, processLine acc l = Except.ok (acc, ev)) :
    ∀ acc (pre post : List String),
      handleStreamFrom acc (pre ++ l :: post) = handleStreamFrom acc (pre ++ post) := by
  intro acc pre post
  rw [handleStreamFrom_append, handleStreamFrom_append]
  cases handleStreamFrom acc pre with
  | ok a =>
    obtain ⟨ev, hev⟩ := hl a
    show (match processLine a l with
          | Except.ok (acc2, _) => handleStreamFrom acc2 post
          | Except.error e => Except.error e) = _
    rw [hev]
  | error e => rfl

theorem handleAsyncStreamFrom_eq (acc : AccumulatedResponse) (ls : List String) :
    handleAsyncStreamFrom acc ls = handleStreamFrom acc ls := by
  induction ls generalizing acc with
  | nil => rfl
  | cons l rest ih =>
    simp only [handleAsyncStreamFrom, handleStreamFrom]
    cases hl : processLine acc l with
    | ok p =>
      obtain ⟨a, ev⟩ := p
      exact ih a
    | error e => rfl

theorem processChunk_ok_decomp (acc : AccumulatedResponse)
    (fields : List (String × JVal)) (acc2 : AccumulatedResponse) (c : String)
    (h : processChunk acc (JVal.obj fields) = Except.ok (acc2, c)) :
    ∃ c0f, chunkChoice0 fields = Except.ok c0f ∧
      deltaContentOf c0f = Except.ok c ∧
      acc2 = applyUsage (applyFinishReason
        { acc with
          top := dictUpdate acc.top
            (fields.filter (fun kv => kv.1 ≠ "choices" ∧ kv.1 ≠ "usage")),
          messageContent := acc.messageContent ++ c,
          deltaContent := acc.deltaContent ++ c } c0f) fields := by
  simp only [processChunk] at h
  cases hc : chunkChoice0 fields with
  | error e =>
    simp only [hc] at h
    exact Except.noConfusion h
  | ok c0f =>
    simp only [hc] at h
    cases hd : deltaContentOf c0f with
    | error e =>
      simp only [hd] at h
      exact Except.noConfusion h
    | ok content =>
      simp only [hd] at h
      injection h with h1
      injection h1 with ha hc2
      subst hc2
      exact ⟨c0f, rfl, hd, ha.symm⟩

theorem applyFinishReason_proj (acc : AccumulatedResponse)
    (c0f : List (String × JVal)) :
    (applyFinishReason acc c0f).messageContent = acc.messageContent ∧
    (applyFinishReason acc c0f).deltaContent = acc.deltaContent ∧
    (applyFinishReason acc c0f).top = acc.top ∧
    (applyFinishReason acc c0f).usage = acc.usage := by
  unfold applyFinishReason
  cases dictGet c0f "finish_reason" <;> simp

theorem applyUsage_proj (acc : AccumulatedResponse)
    (fields : List (String × JVal)) :
    (applyUsage acc fields).messageContent = acc.messageContent ∧
    (applyUsage acc fields).deltaContent = acc.deltaContent ∧
    (applyUsage acc fields).top = acc.top ∧
    (applyUsage acc fields).finish_reason = acc.finish_reason := by
  unfold applyUsage
  cases dictGet fields "usage" <;> simp

theorem applyUsage_some (acc : AccumulatedResponse)
    (fields : List (String × JVal)) (u : JVal)
    (h : dictGet fields "usage" = some u) :
    (applyUsage acc fields).usage = u := by
  unfold applyUsage
  rw [h]

theorem applyUsage_none (acc : AccumulatedResponse)
    (fields : List (String × JVal)) (h : dictGet fields "usage" = none) :
    (applyUsage acc fields).usage = acc.usage := by
  unfold applyUsage
  rw [h]

theorem applyFinishReason_some (acc : AccumulatedResponse)
    (c0f : List (String × JVal)) (fr : JVal)
    (h : dictGet c0f "finish_reason" = some fr) :
    (applyFinishReason acc c0f).finish_reason = fr := by
  unfold applyFinishReason
  rw [h]

theorem applyFinishReason_none (acc : AccumulatedResponse)
    (c0f : List (String × JVal)) (h : dictGet c0f "finish_reason" = none) :
    (applyFinishReason acc c0f).finish_reason = acc.finish_reason := by
  unfold applyFinishReason
  rw [h]

theorem chunkChoice0_of_choices (fields c0f : List (String × JVal))
    (rest : List JVal)
    (h : dictGet fields "choices" = some (JVal.arr (JVal.obj c0f :: rest))) :
    chunkChoice0 fields = Except.ok c0f := by
  unfold chunkChoice0
  rw [h]

theorem deltaContentOf_val (c0f deltaf : List (String × JVal)) (c : String)
    (h : deltaContentOf c0f = Except.ok c)
    (hd : dictGet c0f "delta" = some (JVal.obj deltaf)) :
    JVal.str c = (dictGet deltaf "content").getD (JVal.str "") := by
  unfold deltaContentOf at h
  simp only [hd] at h
  cases hval : (dictGet deltaf "content").getD (JVal.str "") with
  | null => rw [hval] at h; exact Except.noConfusion h
  | bool b => rw [hval] at h; exact Except.noConfusion h
  | num n => rw [hval] at h; exact Except.noConfusion h
  | str s =>
    rw [hval] at h
    injection h with h1
    rw [h1]
  | arr xs => rw [hval] at h; exact Except.noConfusion h
  | obj fs => rw [hval] at h; exact Except.noConfusion h

theorem processLine_sentinel (acc : AccumulatedResponse) :
    processLine acc "data: [DONE]" = Except.ok (acc, LineEvent.ignored) := rfl

theorem processLine_malformed (acc : AccumulatedResponse) (l : String)
    (h0 : l ≠ "") (h1 : pyStartsWith (pyStrip l) "data: " = true)
    (h2 : pyDrop (pyStrip l) 6 ≠ "[DONE]")
    (h3 : parseJson (pyDrop (pyStrip l) 6) = none) :
    processLine acc l =
      Except.ok (acc, LineEvent.malformedReported (pyDrop (pyStrip l) 6)) := by
  simp [processLine, h0, h1, h2, h3]

theorem processLine_chunk (acc : AccumulatedResponse) (l : String) (chunk : JVal)
    (h0 : l ≠ "") (h1 : pyStartsWith (pyStrip l) "data: " = true)
    (h2 : pyDrop (pyStrip l) 6 ≠ "[DONE]")
    (h3 : parseJson (pyDrop (pyStrip l) 6) = some chunk) :
    processLine acc l =
      match processChunk acc chunk with
      | Except.ok (acc2, content) =>
        Except.ok (acc2, LineEvent.chunkProcessed content)
      | Except.error e => Except.error e := by
  simp [processLine, h0, h1, h2, h3]

theorem processLine_error_abort (acc : AccumulatedResponse) (l : String)
    (e : PyError) (ls : List String) (h : processLine acc l = Except.error e) :
    handleStreamFrom acc (l :: ls) = Except.error e := by
  show (match processLine acc l with
        | Except.ok (acc2, _) => handleStreamFrom acc2 ls
        | Except.error e => Except.error e) = _
  rw [h]

theorem validate_segIf (c : Prop) [Decidable c] (e : FieldError) :
    (if c then ([] : List FieldError) else [e]) = [] ↔ c := by
  split_ifs with h
  · simp [h]
  · simp [h]

theorem validateRequest_eq_nil_iff (r : PerplexityRequest) :
    validateRequest r = [] ↔
      ((0 ≤ r.temperature ∧ r.temperature < 2) ∧
       (0 ≤ r.top_p ∧ r.top_p ≤ 1) ∧
       (∀ l, r.search_domain_filter = some l → l.length ≤ 3) ∧
       (∀ v, r.search_recency_filter = some v → validRecency v = true) ∧
       (0 ≤ r.top_k ∧ r.top_k ≤ 2048) ∧
       (-2 ≤ r.presence_penalty ∧ r.presence_penalty ≤ 2) ∧
       0 ≤ r.frequency_penalty) := by
  unfold validateRequest
  rcases hd : r.search_domain_filter with _ | l <;>
    rcases hr : r.search_recency_filter with _ | v <;>
      simp [hd, hr, List.append_eq_nil, validate_segIf]

theorem mkPerplexityRequest_ok_iff (r : PerplexityRequest) :
    mkPerplexityRequest r = Except.ok r ↔ validateRequest r = [] := by
  unfold mkPerplexityRequest
  cases h : validateRequest r with
  | nil => simp
  | cons e es => simp

theorem mem_segIf (c : Prop) [Decidable c] (e e2 : FieldError) :
    e2 ∈ (if c then ([] : List FieldError) else [e]) ↔ (¬c ∧ e2 = e) := by
  split_ifs with h
  · simp [h]
  · simp [h]

theorem invalidRecency_mem_iff (r : PerplexityRequest) :
    FieldError.invalidSearchRecencyFilter ∈ validateRequest r ↔
      ∃ v, r.search_recency_filter = some v ∧ validRecency v = false := by
  unfold validateRequest
  rcases hd : r.search_domain_filter with _ | l <;>
    rcases hr : r.search_recency_filter with _ | v <;>
      simp [hd, hr, List.mem_append, mem_segIf]

theorem reqNegMaxTokens_valid : validateRequest reqNegMaxTokens = [] := by
  norm_num [validateRequest, reqNegMaxTokens]

theorem reqRecencyDay_valid : validateRequest reqRecencyDay = [] := by
  have h : validRecency "day" = true := by decide
  norm_num [validateRequest, reqRecencyDay, h]

theorem reqRecencyYear_errs :
    validateRequest reqRecencyYear = [FieldError.invalidSearchRecencyFilter] := by
  have h : validRecency "year" = false := by decide
  norm_num [validateRequest, reqRecencyYear, h]

/-- C1: counterexample.  The claim states that a line whose payload after
the "data: " prefix equals "[DONE]" terminates consumption, so no later
line is processed and the result equals the accumulation over the lines
before the sentinel.  On the stream [sentinel line, content line x] the
code still accumulates the fragment x of the line after the sentinel, so
the result differs from the accumulation over the empty preceding stream:
the loop of the source has no break on the sentinel. -/
theorem C1_counterexample :
    handleStreamResponse [line_done, line_x] ≠ handleStreamResponse [] ∧
    resMessageContent (handleStreamResponse [line_done, line_x]) = some "x" ∧
    resMessageContent (handleStreamResponse []) = some "" := by
  refine ⟨fun h => ?_, rfl, rfl⟩
  have h2 : (some "x" : Option String) = some "" := by
    calc (some "x" : Option String)
        = resMessageContent (handleStreamResponse [line_done, line_x]) := rfl
      _ = resMessageContent (handleStreamResponse []) := by rw [h]
      _ = some "" := rfl
  exact absurd (Option.some.inj h2) (by decide)

/-- C1 (amended): a line whose payload after the "data: " prefix equals
the sentinel "[DONE]" is itself skipped with no effect on the accumulated
state, but consumption does not terminate: the stream result on any line
sequence containing such a line equals the result on the sequence with
the sentinel line removed, so lines after the sentinel are still
processed (witnessed concretely by the fragment x accumulated from a line
after a sentinel); sync and async accumulators behave identically. -/
theorem C1_theorem :
    (∀ acc, processLine acc "data: [DONE]" = Except.ok (acc, LineEvent.ignored)) ∧
    (∀ acc (pre post : List String),
      handleStreamFrom acc (pre ++ "data: [DONE]" :: post) =
        handleStreamFrom acc (pre ++ post)) ∧
    (∀ lines, handleAsyncStreamResponse lines = handleStreamResponse lines) ∧
    resMessageContent (handleStreamResponse [line_done, line_x]) = some "x" := by
  refine ⟨processLine_sentinel, ?_, ?_, rfl⟩
  · intro acc pre post
    exact handleStreamFrom_skip "data: [DONE]"
      (fun a => ⟨LineEvent.ignored, processLine_sentinel a⟩) acc pre post
  · intro lines
    exact handleAsyncStreamFrom_eq initialAccumulatedResponse lines

/-- C2: counterexample.  The claim states that construction succeeds only
if every numeric field is within its stated domain, in particular that
max_tokens, when present, is a positive integer.  A request carrying
max_tokens = -5 (not positive) is nevertheless accepted: the source puts
no constraint on max_tokens. -/
theorem C2_counterexample :
    mkPerplexityRequest reqNegMaxTokens = Except.ok reqNegMaxTokens ∧
    reqNegMaxTokens.max_tokens = some (-5) ∧
    ¬ (0 < (-5 : Int)) := by
  refine ⟨?_, rfl, by decide⟩
  unfold mkPerplexityRequest
  rw [reqNegMaxTokens_valid]

/-- C2 (amended): construction succeeds exactly when the constrained
fields are within their stated domains - temperature in [0,2), top_p in
[0,1], search_domain_filter of at most 3 entries, search_recency_filter
among the recognized tokens, top_k in [0,2048], presence_penalty in
[-2,2], frequency_penalty nonnegative - and otherwise fails with a
validation error before any network interaction (construction is a pure
value computation); max_tokens carries no constraint: validation is
unchanged under any max_tokens value, and a request with the non-positive
max_tokens -5 is accepted. -/
theorem C2_theorem :
    (∀ r : PerplexityRequest, mkPerplexityRequest r = Except.ok r ↔
      ((0 ≤ r.temperature ∧ r.temperature < 2) ∧
       (0 ≤ r.top_p ∧ r.top_p ≤ 1) ∧
       (∀ l, r.search_domain_filter = some l → l.length ≤ 3) ∧
       (∀ v, r.search_recency_filter = some v → validRecency v = true) ∧
       (0 ≤ r.top_k ∧ r.top_k ≤ 2048) ∧
       (-2 ≤ r.presence_penalty ∧ r.presence_penalty ≤ 2) ∧
       0 ≤ r.frequency_penalty)) ∧
    (∀ r m, validateRequest { r with max_tokens := m } = validateRequest r) ∧
    mkPerplexityRequest reqNegMaxTokens = Except.ok reqNegMaxTokens := by
  refine ⟨?_, ?_, ?_⟩
  · intro r
    exact (mkPerplexityRequest_ok_iff r).trans (validateRequest_eq_nil_iff r)
  · intro r m
    rfl
  · unfold mkPerplexityRequest
    rw [reqNegMaxTokens_valid]

/-- C3: a line whose payload after the "data: " prefix is not parseable
as JSON does not abort the accumulator: processing it reports the
malformed payload and leaves the state unchanged, the stream result on
any sequence containing such a line equals the result with the line
removed, and on the spec's example (a malformed line between the Hel and
lo chunks) the final contents still hold Hello, the fragments before and
after the malformed line in arrival order. -/
theorem C3_theorem :
    (∀ acc l, l ≠ "" → pyStartsWith (pyStrip l) "data: " = true →
      pyDrop (pyStrip l) 6 ≠ "[DONE]" →
      parseJson (pyDrop (pyStrip l) 6) = none →
      processLine acc l =
        Except.ok (acc, LineEvent.malformedReported (pyDrop (pyStrip l) 6))) ∧
    (∀ acc (pre post : List String) l, l ≠ "" →
      pyStartsWith (pyStrip l) "data: " = true →
      pyDrop (pyStrip l) 6 ≠ "[DONE]" →
      parseJson (pyDrop (pyStrip l) 6) = none →
      handleStreamFrom acc (pre ++ l :: post) =
        handleStreamFrom acc (pre ++ post)) ∧
    processLine initialAccumulatedResponse line_bad =
      Except.ok (initialAccumulatedResponse,
        LineEvent.malformedReported "\x7bnot json") ∧
    resMessageContent
      (handleStreamResponse [line_hel, line_bad, line_lo, line_done]) =
      some "Hello" ∧
    resDeltaContent
      (handleStreamResponse [line_hel, line_bad, line_lo, line_done]) =
      some "Hello" := by
  refine ⟨processLine_malformed, ?_, rfl, rfl, rfl⟩
  intro acc pre post l h0 h1 h2 h3
  exact handleStreamFrom_skip l
    (fun a => ⟨_, processLine_malformed a l h0 h1 h2 h3⟩) acc pre post

/-- C4: every successfully processed chunk appends its fragment to both
message.content and delta.content of the accumulated response (mirrored
accumulation); the fragment defaults to the empty string when the delta
carries no content key; and on the spec's example stream (fragments Hel
then lo then the sentinel) both fields end as Hello. -/
theorem C4_theorem :
    (∀ acc chunk acc2 c, processChunk acc chunk = Except.ok (acc2, c) →
      acc2.messageContent = acc.messageContent ++ c ∧
      acc2.deltaContent = acc.deltaContent ++ c) ∧
    (∀ acc fields acc2 c c0f (rest : List JVal)
        (deltaf : List (String × JVal)),
      processChunk acc (JVal.obj fields) = Except.ok (acc2, c) →
      dictGet fields "choices" = some (JVal.arr (JVal.obj c0f :: rest)) →
      dictGet c0f "delta" = some (JVal.obj deltaf) →
      dictGet deltaf "content" = none → c = "") ∧
    resMessageContent (handleStreamResponse [line_hel, line_lo, line_done]) =
      some "Hello" ∧
    resDeltaContent (handleStreamResponse [line_hel, line_lo, line_done]) =
      some "Hello" := by
  refine ⟨?_, ?_, rfl, rfl⟩
  · intro acc chunk acc2 c h
    cases chunk with
    | null => exact Except.noConfusion h
    | bool b => exact Except.noConfusion h
    | num n => exact Except.noConfusion h
    | str s => exact Except.noConfusion h
    | arr xs => exact Except.noConfusion h
    | obj fields =>
      obtain ⟨c0f, hc, hd, ha⟩ := processChunk_ok_decomp acc fields acc2 c h
      subst ha
      refine ⟨?_, ?_⟩
      · rw [(applyUsage_proj _ _).1, (applyFinishReason_proj _ _).1]
      · rw [(applyUsage_proj _ _).2.1, (applyFinishReason_proj _ _).2.1]
  · intro acc fields acc2 c c0f rest deltaf h hchoices hdelta hnone
    obtain ⟨c0f2, hc2, hd2, ha⟩ := processChunk_ok_decomp acc fields acc2 c h
    have hck := chunkChoice0_of_choices fields c0f rest hchoices
    rw [hck] at hc2
    injection hc2 with hceq
    subst hceq
    have hval := deltaContentOf_val _ deltaf c hd2 hdelta
    rw [hnone] at hval
    simpa using hval

/-- C5: a chunk carrying a top-level usage object replaces the
accumulated usage wholesale and a chunk without one leaves it unchanged,
so with several usage-carrying chunks the last writer wins with no
merging: on the spec's example, usage total_tokens 5 followed by usage
total_tokens 9 ends with exactly the second object. -/
theorem C5_theorem :
    (∀ acc fields acc2 c u,
      processChunk acc (JVal.obj fields) = Except.ok (acc2, c) →
      dictGet fields "usage" = some u → acc2.usage = u) ∧
    (∀ acc fields acc2 c,
      processChunk acc (JVal.obj fields) = Except.ok (acc2, c) →
      dictGet fields "usage" = none → acc2.usage = acc.usage) ∧
    resUsage (handleStreamResponse [line_usage5, line_usage9, line_done]) =
      some (JVal.obj [("total_tokens", JVal.num 9)]) ∧
    resUsage (handleStreamResponse [line_usage5, line_done]) =
      some (JVal.obj [("total_tokens", JVal.num 5)]) := by
  refine ⟨?_, ?_, rfl, rfl⟩
  · intro acc fields acc2 c u h hu
    obtain ⟨c0f, hc, hd, ha⟩ := processChunk_ok_decomp acc fields acc2 c h
    subst ha
    exact applyUsage_some _ _ _ hu
  · intro acc fields acc2 c h hu
    obtain ⟨c0f, hc, hd, ha⟩ := processChunk_ok_decomp acc fields acc2 c h
    subst ha
    rw [applyUsage_none _ _ hu, (applyFinishReason_proj _ _).2.2.2]

/-- C6: a chunk whose first choice carries a finish_reason key overwrites
the accumulated finish_reason with that value, and a chunk whose first
choice lacks the key leaves it unchanged; concretely a finish_reason of
stop set by one chunk is not cleared by a later chunk without the key. -/
theorem C6_theorem :
    (∀ acc fields acc2 c c0f (rest : List JVal) fr,
      processChunk acc (JVal.obj fields) = Except.ok (acc2, c) →
      dictGet fields "choices" = some (JVal.arr (JVal.obj c0f :: rest)) →
      dictGet c0f "finish_reason" = some fr → acc2.finish_reason = fr) ∧
    (∀ acc fields acc2 c c0f (rest : List JVal),
      processChunk acc (JVal.obj fields) = Except.ok (acc2, c) →
      dictGet fields "choices" = some (JVal.arr (JVal.obj c0f :: rest)) →
      dictGet c0f "finish_reason" = none →
      acc2.finish_reason = acc.finish_reason) ∧
    resFinishReason (handleStreamResponse [line_stop, line_plain, line_done]) =
      some (JVal.str "stop") ∧
    resFinishReason (handleStreamResponse [line_plain, line_done]) =
      some JVal.null := by
  refine ⟨?_, ?_, rfl, rfl⟩
  · intro acc fields acc2 c c0f rest fr h hchoices hfr
    obtain ⟨c0f2, hc2, hd2, ha⟩ := processChunk_ok_decomp acc fields acc2 c h
    have hck := chunkChoice0_of_choices fields c0f rest hchoices
    rw [hck] at hc2
    injection hc2 with hceq
    subst hceq
    subst ha
    rw [(applyUsage_proj _ _).2.2.2, applyFinishReason_some _ _ _ hfr]
  · intro acc fields acc2 c c0f rest h hchoices hfr
    obtain ⟨c0f2, hc2, hd2, ha⟩ := processChunk_ok_decomp acc fields acc2 c h
    have hck := chunkChoice0_of_choices fields c0f rest hchoices
    rw [hck] at hc2
    injection hc2 with hceq
    subst hceq
    subst ha
    rw [(applyUsage_proj _ _).2.2.2, applyFinishReason_none _ _ hfr]

/-- C7: a present search_recency_filter validates exactly when it is one
of month, week, day, hour (an absent filter contributes no error), and
any other value yields the distinct invalid-recency-filter validation
error: concretely day succeeds and year fails with exactly that error. -/
theorem C7_theorem :
    (∀ r : PerplexityRequest,
      FieldError.invalidSearchRecencyFilter ∈ validateRequest r ↔
        ∃ v, r.search_recency_filter = some v ∧ validRecency v = false) ∧
    (∀ v, validRecency v = true ↔
      (v = "month" ∨ v = "week" ∨ v = "day" ∨ v = "hour")) ∧
    mkPerplexityRequest reqRecencyDay = Except.ok reqRecencyDay ∧
    mkPerplexityRequest reqRecencyYear =
      Except.error [FieldError.invalidSearchRecencyFilter] := by
  refine ⟨invalidRecency_mem_iff, ?_, ?_, ?_⟩
  · intro v
    unfold validRecency
    simp only [Bool.or_eq_true, decide_eq_true_eq]
    tauto
  · unfold mkPerplexityRequest
    rw [reqRecencyDay_valid]
  · unfold mkPerplexityRequest
    rw [reqRecencyYear_errs]

/-- C8: counterexample.  The claim states that the accumulated object
field is the constant chat.completion, never changed by chunks.  A chunk
carrying an object key with another value overwrites it through the
top-level merge rule, so after that chunk the field holds
not-a-completion rather than the initial chat.completion. -/
theorem C8_counterexample :
    resTopGet "object" (handleStreamResponse [line_object]) =
      some (JVal.str "not-a-completion") ∧
    dictGet initialAccumulatedResponse.top "object" =
      some (JVal.str "chat.completion") ∧
    JVal.str "not-a-completion" ≠ JVal.str "chat.completion" := by
  refine ⟨rfl, rfl, fun h => ?_⟩
  exact absurd (JVal.str.inj h) (by decide)

/-- C8 (amended): the object field is initialized to chat.completion and
chunks without an object key leave it unchanged; but it is not constant:
a chunk carrying an object key overwrites it with that key's value via
the merge of every top-level key except choices and usage, as the
concrete not-a-completion chunk shows. -/
theorem C8_theorem :
    dictGet initialAccumulatedResponse.top "object" =
      some (JVal.str "chat.completion") ∧
    (∀ acc fields acc2 c,
      processChunk acc (JVal.obj fields) = Except.ok (acc2, c) →
      dictHas fields "object" = false →
      dictGet acc2.top "object" = dictGet acc.top "object") ∧
    (∀ acc fields acc2 c v,
      processChunk acc (JVal.obj fields) = Except.ok (acc2, c) →
      lastBinding fields "object" = some v →
      dictGet acc2.top "object" = some v) ∧
    resTopGet "object" (handleStreamResponse [line_object]) =
      some (JVal.str "not-a-completion") := by
  refine ⟨rfl, ?_, ?_, rfl⟩
  · intro acc fields acc2 c h hno
    obtain ⟨c0f, hc, hd, ha⟩ := processChunk_ok_decomp acc fields acc2 c h
    subst ha
    rw [(applyUsage_proj _ _).2.2.1, (applyFinishReason_proj _ _).2.2.1]
    show dictGet (dictUpdate acc.top _) "object" = dictGet acc.top "object"
    rw [dictGet_dictUpdate]
    have hnof := dictHas_filter_false fields "object"
      (fun kv : String × JVal => decide (kv.1 ≠ "choices" ∧ kv.1 ≠ "usage")) hno
    rw [lastBinding_none_of_not_has _ _ hnof]
  · intro acc fields acc2 c v h hv
    obtain ⟨c0f, hc, hd, ha⟩ := processChunk_ok_decomp acc fields acc2 c h
    subst ha
    rw [(applyUsage_proj _ _).2.2.1, (applyFinishReason_proj _ _).2.2.1]
    show dictGet (dictUpdate acc.top _) "object" = some v
    rw [dictGet_dictUpdate]
    have hp : ∀ w : JVal,
        (fun kv : String × JVal => decide (kv.1 ≠ "choices" ∧ kv.1 ≠ "usage"))
          ("object", w) = true := fun w => rfl
    rw [lastBinding_filter fields "object" _ hp, hv]

/-- C9: an explicit nonempty credential parameter takes precedence over
any environment value; with no explicit parameter a nonempty environment
value is used; and with neither present client construction fails
immediately with the configuration error (construction is pure, so no
network call is involved). -/
theorem C9_theorem :
    (∀ k e, k ≠ "" → mkClient (some k) e = Except.ok k) ∧
    mkClient (some "param-key") (some "env-key") = Except.ok "param-key" ∧
    (∀ e, e ≠ "" → mkClient none (some e) = Except.ok e) ∧
    mkClient none none = Except.error "API key must be provided either as a parameter or through the PERPLEXITY_API_KEY environment variable." := by
  refine ⟨?_, rfl, ?_, rfl⟩
  · intro k e hk
    unfold mkClient pyOrStr
    simp [hk]
  · intro e he
    unfold mkClient pyOrStr
    simp [he]

/-- C10: the accumulator's containment of bad chunks covers only JSON
decode failures; a payload that parses as JSON but does not conform to
the expected chunk shape raises an uncaught error that aborts the whole
stream: a processLine error aborts handleStreamFrom; a non-object chunk
raises an AttributeError; an object without a choices key raises a
KeyError; an empty choices list raises an IndexError; a first choice
without a delta key raises a KeyError; and concretely the stream
beginning with the empty-object chunk aborts with the choices KeyError
even though a valid chunk follows. -/
theorem C10_theorem :
    (∀ acc l e (ls : List String), processLine acc l = Except.error e →
      handleStreamFrom acc (l :: ls) = Except.error e) ∧
    (∀ acc chunk, (∀ fields, chunk ≠ JVal.obj fields) →
      processChunk acc chunk = Except.error PyError.attributeError) ∧
    (∀ acc fields, dictGet fields "choices" = none →
      processChunk acc (JVal.obj fields) =
        Except.error (PyError.keyError "choices")) ∧
    (∀ acc fields, dictGet fields "choices" = some (JVal.arr []) →
      processChunk acc (JVal.obj fields) = Except.error PyError.indexError) ∧
    (∀ acc fields c0f (rest : List JVal),
      dictGet fields "choices" = some (JVal.arr (JVal.obj c0f :: rest)) →
      dictGet c0f "delta" = none →
      processChunk acc (JVal.obj fields) =
        Except.error (PyError.keyError "delta")) ∧
    handleStreamResponse [line_noChoices, line_hel] =
      Except.error (PyError.keyError "choices") := by
  refine ⟨processLine_error_abort, ?_, ?_, ?_, ?_, rfl⟩
  · intro acc chunk h
    cases chunk with
    | null => rfl
    | bool b => rfl
    | num n => rfl
    | str s => rfl
    | arr xs => rfl
    | obj fields => exact absurd rfl (h fields)
  · intro acc fields h
    have hc : chunkChoice0 fields = Except.error (PyError.keyError "choices") := by
      unfold chunkChoice0
      rw [h]
    simp [processChunk, hc]
  · intro acc fields h
    have hc : chunkChoice0 fields = Except.error PyError.indexError := by
      unfold chunkChoice0
      rw [h]
    simp [processChunk, hc]
  · intro acc fields c0f rest h hd
    have hc : chunkChoice0 fields = Except.ok c0f :=
      chunkChoice0_of_choices fields c0f rest h
    have hdc : deltaContentOf c0f = Except.error (PyError.keyError "delta") := by
      unfold deltaContentOf
      rw [hd]
    simp [processChunk, hc, hdc]
